import Mathlib

/-!
# Verification development for `mcp/client.go`

A shallow embedding of the multi-provider chat-completion client
(`package mcp`): the configuration setters, the single-attempt dispatcher
`callOnce`, the retry controller `CallWithMessages` and the textual error
classifier `isRetryableError`.

Modelling conventions

* A Go `string` is a sequence of bytes (`GoString`); literals of the source are
  written with `str`, which gives their UTF-8 bytes.
* A Go `error` is a `GoError`: its message and, for errors made with `%w`, the
  error it wraps.
* A Go result pair `(string, error)` is `GoString × Option GoError`; `none` is
  `nil`.
* `time.Duration` is a number of nanoseconds.
* Everything outside the package (the HTTP round trip, `json.Unmarshal`) is an
  `Env`: the `n`-th invocation of `callOnce` meets `env.outcome n`.
* Side effects are recorded in a `World`: the number of dispatcher invocations
  made so far and the trace of events (log lines, console lines, sleeps, HTTP
  requests handed to the transport).
-/

namespace Mcp

/-! ## Strings and errors -/

/-- Go strings are byte sequences. -/
abbrev GoString := List UInt8

/-- The UTF-8 bytes of a source literal. -/
def str (s : String) : GoString := s.data.flatMap String.utf8EncodeChar

/-- Decimal rendering of a non-negative integer, as `%d` prints it. -/
def Itoa (n : Nat) : GoString := str (Nat.repr n)

/-- Rendering of a boolean, as `%v` prints it. -/
def FormatBool (b : Bool) : GoString := if b then str "true" else str "false"

/-- Go `strings.HasSuffix`. -/
def HasSuffix (s suffix : GoString) : Bool := suffix.isSuffixOf s

/-- Go `strings.TrimSuffix`: the string without the suffix when it has it. -/
def TrimSuffix (s suffix : GoString) : GoString :=
  if HasSuffix s suffix then s.take (s.length - suffix.length) else s

/-- Go `strings.Contains`: `substr` occurs in `s` as a contiguous block. -/
def Contains : GoString → GoString → Bool
  | [], substr => substr.isEmpty
  | c :: cs, substr => substr.isPrefixOf (c :: cs) || Contains cs substr

/-- A Go error value: its message, and the wrapped error when made with `%w`. -/
inductive GoError where
  | plain (msg : GoString)
  | wrap (msg : GoString) (cause : GoError)
deriving DecidableEq, Repr

/-- The method `Error()`. -/
def GoError.Error : GoError → GoString
  | .plain msg => msg
  | .wrap msg _ => msg

/-- The method `Unwrap()` of errors made with `%w`. -/
def GoError.Unwrap : GoError → Option GoError
  | .plain _ => none
  | .wrap _ cause => some cause

/-- Nanoseconds, as `time.Duration`. -/
abbrev Duration := Nat

/-- The constant `time.Second`. -/
def Second : Duration := 1000000000

/-! ## Data model -/

/-- The type `Provider` is a string. -/
abbrev Provider := GoString

def ProviderDeepSeek : Provider := str "deepseek"
def ProviderQwen : Provider := str "qwen"
def ProviderGemini : Provider := str "gemini"
def ProviderCustom : Provider := str "custom"

/-- The struct `Client`. -/
structure Client where
  Provider : Provider
  APIKey : GoString
  BaseURL : GoString
  Model : GoString
  Timeout : Duration
  UseFullURL : Bool
deriving DecidableEq, Repr

/-- A JSON number written as `mantissa / 10 ^ scale`; `0.5` is `⟨5, 1⟩`. -/
structure JsonNumber where
  mantissa : Nat
  scale : Nat
deriving DecidableEq, Repr

/-- One entry of the OpenAI-compatible message list: `role` and `content`. -/
structure Message where
  role : GoString
  content : GoString
deriving DecidableEq, Repr

/-- The OpenAI-compatible request body. -/
structure ChatBody where
  model : GoString
  messages : List Message
  temperature : JsonNumber
  max_tokens : Nat
deriving DecidableEq, Repr

/-- A Gemini block with a `role` and the `text` of each of its `parts`. -/
structure GeminiBlock where
  role : GoString
  parts : List GoString
deriving DecidableEq, Repr

/-- The Gemini `generateContent` request body; an absent key is `none`. -/
structure GeminiBody where
  system_instruction : Option GeminiBlock
  contents : List GeminiBlock
  temperature : JsonNumber
  maxOutputTokens : Nat
deriving DecidableEq, Repr

/-- The value handed to `json.Marshal`. -/
inductive Payload where
  | gemini (body : GeminiBody)
  | chat (body : ChatBody)
deriving DecidableEq, Repr

/-- The HTTP request handed to the transport, with the client timeout. -/
structure HttpRequest where
  method : GoString
  url : GoString
  headers : List (GoString × GoString)
  body : Payload
  timeout : Duration
deriving DecidableEq, Repr

/-- The decoded Gemini response: for each candidate the texts of its parts. -/
structure GeminiCandidate where
  parts : List GoString
deriving DecidableEq, Repr

structure GeminiResponse where
  candidates : List GeminiCandidate
deriving DecidableEq, Repr

/-- The decoded OpenAI-compatible response: the message content of each choice. -/
structure ChatResponse where
  choices : List GoString
deriving DecidableEq, Repr

/-- What one invocation of `callOnce` meets outside the package. -/
inductive HttpOutcome where
  /-- The call `http.NewRequest` rejects the URL. -/
  | newRequestFailed (err : GoError)
  /-- The call `httpClient.Do` fails. -/
  | sendFailed (err : GoError)
  /-- The call `io.ReadAll` fails on the response body. -/
  | readFailed (err : GoError)
  /-- A response arrives with this status code and body. -/
  | response (status : Nat) (body : GoString)
deriving DecidableEq, Repr

/-- The environment of the package. -/
structure Env where
  /-- What the `n`-th dispatcher invocation (counted from 0) meets. -/
  outcome : Nat → HttpOutcome
  /-- The function `json.Unmarshal` into the Gemini response struct. -/
  unmarshalGemini : GoString → Except GoError GeminiResponse
  /-- The function `json.Unmarshal` into the OpenAI-compatible response struct. -/
  unmarshalChat : GoString → Except GoError ChatResponse

/-- Observable effects. -/
inductive Event where
  /-- A message given to `log.Printf`, rendered. -/
  | log (line : GoString)
  /-- Console line `fmt.Printf("⚠️  AI API调用失败，正在重试 (%d/%d)...\n", attempt, maxRetries)`. -/
  | printRetrying (attempt maxRetries : Nat)
  /-- Console line `fmt.Printf("✓ AI API重试成功\n")`. -/
  | printRetryOk
  /-- Console line `fmt.Printf("⏳ 等待%v后重试...\n", waitTime)`. -/
  | printWaiting (waitTime : Duration)
  /-- The call `time.Sleep(d)`. -/
  | sleep (d : Duration)
  /-- The call `httpClient.Do(req)`. -/
  | request (req : HttpRequest)
deriving DecidableEq, Repr

/-- The state of the outside world. -/
structure World where
  /-- Number of `callOnce` invocations made so far. -/
  calls : Nat
  trace : List Event
deriving DecidableEq, Repr

def World.emit (w : World) (e : Event) : World := { w with trace := w.trace ++ [e] }

def World.log (w : World) (line : GoString) : World := w.emit (.log line)

/-- The waits performed, in order. -/
def sleeps : List Event → List Duration
  | [] => []
  | .sleep d :: es => d :: sleeps es
  | _ :: es => sleeps es

/-- The HTTP requests handed to the transport, in order. -/
def requests : List Event → List HttpRequest
  | [] => []
  | .request r :: es => r :: requests es
  | _ :: es => requests es

/-- The order of HTTP requests and waits in a trace: `none` stands for a request
handed to the transport, `some d` for a wait of `d`. -/
def schedule : List Event → List (Option Duration)
  | [] => []
  | .request _ :: es => none :: schedule es
  | .sleep d :: es => some d :: schedule es
  | _ :: es => schedule es

/-- The logged messages, in order. -/
def logLines : List Event → List GoString
  | [] => []
  | .log l :: es => l :: logLines es
  | _ :: es => logLines es

/-! ## Configuration holder -/

/-- The constructor `New`. -/
def New : Client :=
  { Provider := ProviderDeepSeek
    APIKey := []
    BaseURL := str "https://api.deepseek.com/v1"
    Model := str "deepseek-chat"
    Timeout := 120 * Second
    UseFullURL := false }

/-- The redacted key line of the setters: `apiKey[:4]`, three dots, and
`apiKey[len(apiKey)-4:]`, printed only when `len(apiKey) > 8`. -/
def logKey (label : GoString) (apiKey : GoString) (w : World) : World :=
  if apiKey.length > 8 then
    w.log (label ++ apiKey.take 4 ++ str "..." ++ apiKey.drop (apiKey.length - 4))
  else w

/-- The method `SetDeepSeekAPIKey` (lines 46-67). -/
def SetDeepSeekAPIKey (client : Client) (apiKey customURL customModel : GoString)
    (w : World) : Client × World :=
  let client := { client with Provider := ProviderDeepSeek }
  let client := { client with APIKey := apiKey }
  let (client, w) :=
    if customURL ≠ [] then
      ({ client with BaseURL := customURL },
        w.log (str "🔧 [MCP] DeepSeek 使用自定义 BaseURL: " ++ customURL))
    else
      let client := { client with BaseURL := str "https://api.deepseek.com/v1" }
      (client, w.log (str "🔧 [MCP] DeepSeek 使用默认 BaseURL: " ++ client.BaseURL))
  let (client, w) :=
    if customModel ≠ [] then
      ({ client with Model := customModel },
        w.log (str "🔧 [MCP] DeepSeek 使用自定义 Model: " ++ customModel))
    else
      let client := { client with Model := str "deepseek-chat" }
      (client, w.log (str "🔧 [MCP] DeepSeek 使用默认 Model: " ++ client.Model))
  (client, logKey (str "🔧 [MCP] DeepSeek API Key: ") apiKey w)

/-- The method `SetQwenAPIKey` (lines 71-92). -/
def SetQwenAPIKey (client : Client) (apiKey customURL customModel : GoString)
    (w : World) : Client × World :=
  let client := { client with Provider := ProviderQwen }
  let client := { client with APIKey := apiKey }
  let (client, w) :=
    if customURL ≠ [] then
      ({ client with BaseURL := customURL },
        w.log (str "🔧 [MCP] Qwen 使用自定义 BaseURL: " ++ customURL))
    else
      let client :=
        { client with BaseURL := str "https://dashscope.aliyuncs.com/compatible-mode/v1" }
      (client, w.log (str "🔧 [MCP] Qwen 使用默认 BaseURL: " ++ client.BaseURL))
  let (client, w) :=
    if customModel ≠ [] then
      ({ client with Model := customModel },
        w.log (str "🔧 [MCP] Qwen 使用自定义 Model: " ++ customModel))
    else
      let client := { client with Model := str "qwen-plus" }
      (client, w.log (str "🔧 [MCP] Qwen 使用默认 Model: " ++ client.Model))
  (client, logKey (str "🔧 [MCP] Qwen API Key: ") apiKey w)

/-- The method `SetGeminiAPIKey` (lines 96-116). -/
def SetGeminiAPIKey (client : Client) (apiKey customURL customModel : GoString)
    (w : World) : Client × World :=
  let client := { client with Provider := ProviderGemini }
  let client := { client with APIKey := apiKey }
  let (client, w) :=
    if customURL ≠ [] then
      ({ client with BaseURL := customURL },
        w.log (str "🔧 [MCP] Gemini 使用自定义 BaseURL: " ++ customURL))
    else
      let client :=
        { client with BaseURL := str "https://generativelanguage.googleapis.com/v1beta" }
      (client, w.log (str "🔧 [MCP] Gemini 使用默认 BaseURL: " ++ client.BaseURL))
  let (client, w) :=
    if customModel ≠ [] then
      ({ client with Model := customModel },
        w.log (str "🔧 [MCP] Gemini 使用自定义 Model: " ++ customModel))
    else
      let client := { client with Model := str "gemini-1.5-flash" }
      (client, w.log (str "🔧 [MCP] Gemini 使用默认 Model: " ++ client.Model))
  (client, logKey (str "🔧 [MCP] Gemini API Key: ") apiKey w)

/-- The method `SetCustomAPI` (lines 119-134); it logs nothing. -/
def SetCustomAPI (client : Client) (apiURL apiKey modelName : GoString) : Client :=
  let client := { client with Provider := ProviderCustom }
  let client := { client with APIKey := apiKey }
  let client :=
    if HasSuffix apiURL (str "#") then
      { client with BaseURL := TrimSuffix apiURL (str "#"), UseFullURL := true }
    else
      { client with BaseURL := apiURL, UseFullURL := false }
  let client := { client with Model := modelName }
  { client with Timeout := 120 * Second }

/-- Memory holding `Client` values: an address is an index into `cells`. -/
structure Heap where
  cells : List Client
deriving DecidableEq, Repr

/-- The value a pointer points at, when it points at a live cell. -/
def Heap.read (h : Heap) (p : Nat) : Option Client := h.cells[p]?

/-- A new cell holding `v`; its address is the second component. -/
def Heap.alloc (h : Heap) (v : Client) : Heap × Nat := (⟨h.cells ++ [v]⟩, h.cells.length)

/-- Store through a pointer. -/
def Heap.modify (h : Heap) (p : Nat) (f : Client → Client) : Heap := ⟨h.cells.modify f p⟩

/-- The method `SetClient` (lines 137-142).  The receiver `client` is a pointer held in
a local variable; the parameter (named `Client` in the source, `config` here) is a
copy of the argument in a cell of its own, since its address is taken.  The default
timeout is stored in that cell, and the last statement `client = &Client` rebinds the
local pointer, which is dropped on return.  The result is the memory after the
call. -/
def SetClient (h : Heap) (client : Nat) (config : Client) : Heap :=
  let (h, pConfig) := h.alloc config
  let h :=
    if config.Timeout = 0 then h.modify pConfig (fun c => { c with Timeout := 30 * Second })
    else h
  let client := pConfig
  let _ := client
  h

/-! ## Request builder and dispatcher -/

/-- The configuration lines `callOnce` logs first (lines 187-194). -/
def logConfig (client : Client) (w : World) : World :=
  let w := w.log (str "📡 [MCP] AI 请求配置:")
  let w := w.log (str "   Provider: " ++ client.Provider)
  let w := w.log (str "   BaseURL: " ++ client.BaseURL)
  let w := w.log (str "   Model: " ++ client.Model)
  let w := w.log (str "   UseFullURL: " ++ FormatBool client.UseFullURL)
  logKey (str "   API Key: ") client.APIKey w

/-- The request body `callOnce` builds (lines 199-252).  `json.Marshal` cannot
fail on these values, so its error branches are never taken. -/
def buildPayload (client : Client) (systemPrompt userPrompt : GoString) : Payload :=
  if client.Provider = ProviderGemini then
    .gemini
      { system_instruction :=
          if systemPrompt ≠ [] then
            some { role := str "system", parts := [systemPrompt] }
          else none
        contents := [{ role := str "user", parts := [userPrompt] }]
        temperature := ⟨5, 1⟩
        maxOutputTokens := 2000 }
  else
    let messages : List Message := []
    let messages :=
      if systemPrompt ≠ [] then
        messages ++ [{ role := str "system", content := systemPrompt }]
      else messages
    let messages := messages ++ [{ role := str "user", content := userPrompt }]
    .chat
      { model := client.Model
        messages := messages
        temperature := ⟨5, 1⟩
        max_tokens := 2000 }

/-- The target URL `callOnce` computes (lines 258-271). -/
def requestURL (client : Client) : GoString :=
  if client.Provider = ProviderGemini then
    let base := client.BaseURL
    let base :=
      if base = [] then str "https://generativelanguage.googleapis.com/v1beta" else base
    base ++ str "/models/" ++ client.Model ++ str ":generateContent?key=" ++ client.APIKey
  else
    if client.UseFullURL then client.BaseURL
    else client.BaseURL ++ str "/chat/completions"

/-- The headers `callOnce` sets (lines 279-292). -/
def requestHeaders (client : Client) : List (GoString × GoString) :=
  let headers := [(str "Content-Type", str "application/json")]
  if client.Provider = ProviderGemini then headers
  else if client.Provider = ProviderDeepSeek then
    headers ++ [(str "Authorization", str "Bearer " ++ client.APIKey)]
  else if client.Provider = ProviderQwen then
    headers ++ [(str "Authorization", str "Bearer " ++ client.APIKey)]
  else
    headers ++ [(str "Authorization", str "Bearer " ++ client.APIKey)]

/-- The error of line 309:
`fmt.Errorf("API返回错误 (status %d): %s", resp.StatusCode, string(body))`.
The status code of a response read by `net/http` is never negative. -/
def statusError (status : Nat) (body : GoString) : GoError :=
  .plain (str "API返回错误 (status " ++ Itoa status ++ str "): " ++ body)

/-- The error of lines 327 and 342: `fmt.Errorf("API返回空响应")`. -/
def emptyResponseError : GoError := .plain (str "API返回空响应")

/-- Decoding of a response body with status 200 (lines 313-345). -/
def parseResponse (env : Env) (client : Client) (body : GoString) :
    GoString × Option GoError :=
  if client.Provider = ProviderGemini then
    match env.unmarshalGemini body with
    | .error err => ([], some (.wrap (str "解析Gemini响应失败: " ++ err.Error) err))
    | .ok gres =>
      match gres.candidates with
      | [] => ([], some emptyResponseError)
      | candidate :: _ =>
        match candidate.parts with
        | [] => ([], some emptyResponseError)
        | text :: _ => (text, none)
  else
    match env.unmarshalChat body with
    | .error err => ([], some (.wrap (str "解析响应失败: " ++ err.Error) err))
    | .ok result =>
      match result.choices with
      | [] => ([], some emptyResponseError)
      | content :: _ => (content, none)

/-- The method `callOnce` (lines 185-346): one dispatch. -/
def callOnce (env : Env) (client : Client) (systemPrompt userPrompt : GoString)
    (w : World) : (GoString × Option GoError) × World :=
  let w := logConfig client w
  let jsonData := buildPayload client systemPrompt userPrompt
  let url := requestURL client
  let w := w.log (str "📡 [MCP] 请求 URL: " ++ url)
  let outcome := env.outcome w.calls
  let w := { w with calls := w.calls + 1 }
  let req : HttpRequest :=
    ⟨str "POST", url, requestHeaders client, jsonData, client.Timeout⟩
  match outcome with
  | .newRequestFailed err =>
    (([], some (.wrap (str "创建请求失败: " ++ err.Error) err)), w)
  | .sendFailed err =>
    (([], some (.wrap (str "发送请求失败: " ++ err.Error) err)), w.emit (.request req))
  | .readFailed err =>
    (([], some (.wrap (str "读取响应失败: " ++ err.Error) err)), w.emit (.request req))
  | .response status body =>
    let w := w.emit (.request req)
    if status ≠ 200 then (([], some (statusError status body)), w)
    else (parseResponse env client body, w)

/-- The result of the dispatcher invocation that is the `n`-th of the world
(counted from 0): `callOnce` run where `n` invocations went before. -/
def attemptResult (env : Env) (client : Client) (systemPrompt userPrompt : GoString)
    (n : Nat) : GoString × Option GoError :=
  (callOnce env client systemPrompt userPrompt ⟨n, []⟩).1

/-- The events of the dispatcher invocation that is the `n`-th of the world (counted
from 0): what `callOnce` adds to the trace when `n` invocations went before. -/
def attemptEvents (env : Env) (client : Client) (systemPrompt userPrompt : GoString)
    (n : Nat) : List Event :=
  (callOnce env client systemPrompt userPrompt ⟨n, []⟩).2.trace

/-! ## Retry controller -/

/-- The substrings `isRetryableError` looks for (lines 352-359). -/
def retryableErrors : List GoString :=
  [str "EOF", str "timeout", str "connection reset", str "connection refused",
   str "temporary failure", str "no such host"]

/-- The function `isRetryableError` (lines 349-366). -/
def isRetryableError (err : GoError) : Bool :=
  let errStr := err.Error
  retryableErrors.any (fun retryable => Contains errStr retryable)

/-- The error of line 147. -/
def missingKeyError : GoError :=
  .plain (str "AI API密钥未设置，请先调用 SetDeepSeekAPIKey() 或 SetQwenAPIKey()")

/-- The error of line 181: `fmt.Errorf("重试%d次后仍然失败: %w", maxRetries, lastErr)`.
With a nil operand `%w` prints `%!w(<nil>)` and nothing is wrapped. -/
def exhaustedError (maxRetries : Nat) (lastErr : Option GoError) : GoError :=
  match lastErr with
  | some err =>
    .wrap (str "重试" ++ Itoa maxRetries ++ str "次后仍然失败: " ++ err.Error) err
  | none => .plain (str "重试" ++ Itoa maxRetries ++ str "次后仍然失败: %!w(<nil>)")

/-- The loop of `CallWithMessages` (lines 154-181) over the attempt numbers still
to run; `[]` is the loop exit. -/
def retryLoop (env : Env) (client : Client) (systemPrompt userPrompt : GoString)
    (maxRetries : Nat) :
    List Nat → Option GoError → World → (GoString × Option GoError) × World
  | [], lastErr, w => (([], some (exhaustedError maxRetries lastErr)), w)
  | attempt :: rest, _, w =>
    let w := if attempt > 1 then w.emit (.printRetrying attempt maxRetries) else w
    match callOnce env client systemPrompt userPrompt w with
    | ((result, none), w) =>
      let w := if attempt > 1 then w.emit .printRetryOk else w
      ((result, none), w)
    | ((_, some err), w) =>
      if !isRetryableError err then (([], some err), w)
      else
        let w :=
          if attempt < maxRetries then
            let waitTime : Duration := attempt * 2 * Second
            (w.emit (.printWaiting waitTime)).emit (.sleep waitTime)
          else w
        retryLoop env client systemPrompt userPrompt maxRetries rest (some err) w

/-- The method `CallWithMessages` (lines 145-182). -/
def CallWithMessages (env : Env) (client : Client) (systemPrompt userPrompt : GoString)
    (w : World) : (GoString × Option GoError) × World :=
  if client.APIKey = [] then (([], some missingKeyError), w)
  else
    let maxRetries := 3
    retryLoop env client systemPrompt userPrompt maxRetries
      (List.range' 1 maxRetries) none w

/-! ## Sample clients and environments -/

/-- A client set up for an OpenAI-compatible endpoint. -/
def sampleClient : Client :=
  SetCustomAPI New (str "https://example.test/v1") (str "sk-test") (str "m1")

/-- An environment with the given outcomes whose decoders read every body as one
choice (or one candidate with one part) holding the body. -/
def echoEnv (outcome : Nat → HttpOutcome) : Env :=
  { outcome := outcome
    unmarshalGemini := fun body => .ok ⟨[⟨[body]⟩]⟩
    unmarshalChat := fun body => .ok ⟨[body]⟩ }

/-- Two transport failures, then a 200 response. -/
def flakyEnv : Env :=
  echoEnv fun n =>
    if n = 0 then .sendFailed (.plain (str "unexpected EOF"))
    else if n = 1 then .sendFailed (.plain (str "connect: connection refused"))
    else .response 200 (str "ok")

/-- One transport failure, then a 401 response. -/
def unauthorizedEnv : Env :=
  echoEnv fun n =>
    if n = 0 then .sendFailed (.plain (str "unexpected EOF"))
    else .response 401 (str "invalid api key")

/-- The transport fails on every attempt. -/
def downEnv : Env :=
  echoEnv fun _ => .sendFailed (.plain (str "connect: connection refused"))

/-- Every attempt is answered 504 with a body that speaks of a timeout. -/
def gatewayTimeoutEnv : Env :=
  echoEnv fun _ => .response 504 (str "upstream request timeout")

/-- Every attempt is answered 201. -/
def createdEnv : Env :=
  echoEnv fun _ => .response 201 (str "created")

/-- A client set up for Gemini with the default URL and model. -/
def geminiClient : Client :=
  (SetGeminiAPIKey New (str "g-key-0123456789") [] [] ⟨0, []⟩).1

/-- Every attempt is answered 200 with the body `hello`. -/
def helloEnv : Env :=
  echoEnv fun _ => .response 200 (str "hello")

/-- A Gemini client built as a struct literal, with `BaseURL` left empty. -/
def bareGeminiClient : Client :=
  { Provider := ProviderGemini
    APIKey := str "g-key-0123456789"
    BaseURL := []
    Model := str "gemini-1.5-flash"
    Timeout := 120 * Second
    UseFullURL := false }

/-- A client set up for a local OpenAI-compatible server, with no model name. -/
def noModelClient : Client :=
  SetCustomAPI New (str "http://localhost:8080/v1") (str "sk-local") []

/-- A Gemini client set up by `SetGeminiAPIKey` with the given key. -/
def geminiClientWithKey (apiKey : GoString) : Client :=
  (SetGeminiAPIKey New apiKey [] [] ⟨0, []⟩).1

/-! ## Basic facts about the trace -/

theorem sleeps_append (a b : List Event) : sleeps (a ++ b) = sleeps a ++ sleeps b := by
  induction a with
  | nil => rfl
  | cons e es ih => cases e <;> simp [sleeps, ih]

theorem requests_append (a b : List Event) :
    requests (a ++ b) = requests a ++ requests b := by
  induction a with
  | nil => rfl
  | cons e es ih => cases e <;> simp [requests, ih]

theorem logKey_calls (label apiKey : GoString) (w : World) :
    (logKey label apiKey w).calls = w.calls := by
  unfold logKey World.log World.emit
  split <;> rfl

theorem logKey_sleeps (label apiKey : GoString) (w : World) :
    sleeps (logKey label apiKey w).trace = sleeps w.trace := by
  unfold logKey World.log World.emit
  split <;> simp [sleeps_append, sleeps]

theorem logKey_requests (label apiKey : GoString) (w : World) :
    requests (logKey label apiKey w).trace = requests w.trace := by
  unfold logKey World.log World.emit
  split <;> simp [requests_append, requests]

theorem logConfig_calls (client : Client) (w : World) :
    (logConfig client w).calls = w.calls := by
  simp [logConfig, logKey_calls, World.log, World.emit]

theorem logConfig_sleeps (client : Client) (w : World) :
    sleeps (logConfig client w).trace = sleeps w.trace := by
  simp [logConfig, logKey_sleeps, World.log, World.emit, sleeps_append, sleeps]

theorem logConfig_requests (client : Client) (w : World) :
    requests (logConfig client w).trace = requests w.trace := by
  simp [logConfig, logKey_requests, World.log, World.emit, requests_append, requests]

/-! ## Basic facts about `callOnce` -/

/-- The result of `callOnce` depends on the world only through the number of
invocations made before. -/
theorem callOnce_fst (env : Env) (client : Client) (sp up : GoString) (w : World) :
    (callOnce env client sp up w).1 = attemptResult env client sp up w.calls := by
  unfold attemptResult callOnce
  simp only [World.log, World.emit, logConfig_calls]
  cases env.outcome w.calls <;> simp
  split <;> rfl

/-- Every invocation of `callOnce` is counted once. -/
theorem callOnce_calls (env : Env) (client : Client) (sp up : GoString) (w : World) :
    (callOnce env client sp up w).2.calls = w.calls + 1 := by
  unfold callOnce
  simp only [World.log, World.emit, logConfig_calls]
  cases env.outcome w.calls <;> simp
  split <;> rfl

/-- The dispatcher never sleeps. -/
theorem callOnce_sleeps (env : Env) (client : Client) (sp up : GoString) (w : World) :
    sleeps (callOnce env client sp up w).2.trace = sleeps w.trace := by
  unfold callOnce
  simp only [World.log, World.emit, logConfig_calls]
  cases env.outcome w.calls <;> simp [sleeps_append, sleeps, logConfig_sleeps]
  split <;> simp [sleeps_append, sleeps, logConfig_sleeps]

/-- The key line is appended to the trace. -/
theorem logKey_world (label apiKey : GoString) (w : World) (n : Nat) :
    logKey label apiKey w = ⟨w.calls, w.trace ++ (logKey label apiKey ⟨n, []⟩).trace⟩ := by
  unfold logKey World.log World.emit
  split <;> simp

/-- The configuration lines are appended to the trace. -/
theorem logConfig_world (client : Client) (w : World) (n : Nat) :
    logConfig client w = ⟨w.calls, w.trace ++ (logConfig client ⟨n, []⟩).trace⟩ := by
  unfold logConfig
  simp only [World.log, World.emit]
  rw [logKey_world _ _ _ n]
  conv_rhs => rw [logKey_world _ _ _ n]
  simp

/-- The world after `callOnce`: one more invocation, and the events of that invocation
appended to the trace. -/
theorem callOnce_world (env : Env) (client : Client) (sp up : GoString) (w : World) :
    (callOnce env client sp up w).2
      = ⟨w.calls + 1, w.trace ++ attemptEvents env client sp up w.calls⟩ := by
  unfold attemptEvents callOnce
  simp only [World.log, World.emit]
  rw [logConfig_world client w w.calls]
  simp only [logConfig_calls]
  cases env.outcome w.calls <;> simp
  split <;> simp

/-- The function `callOnce` as a pair of the result and the world after it. -/
theorem callOnce_eq (env : Env) (client : Client) (sp up : GoString) (w : World) :
    callOnce env client sp up w
      = (attemptResult env client sp up w.calls,
         ⟨w.calls + 1, w.trace ++ attemptEvents env client sp up w.calls⟩) :=
  Prod.ext (callOnce_fst env client sp up w) (callOnce_world env client sp up w)

/-- No wait happens inside a dispatcher invocation. -/
theorem attemptEvents_sleeps (env : Env) (client : Client) (sp up : GoString) (n : Nat) :
    sleeps (attemptEvents env client sp up n) = [] := by
  unfold attemptEvents
  rw [callOnce_sleeps]
  rfl

/-! ## One turn of the retry loop -/

/-- A successful attempt: the whole outcome of the loop. -/
theorem retryLoop_success_world (env : Env) (client : Client) (sp up : GoString)
    (maxRetries attempt : Nat) (rest : List Nat) (lastErr : Option GoError) (w : World)
    (r : GoString)
    (h : attemptResult env client sp up w.calls = (r, none)) :
    retryLoop env client sp up maxRetries (attempt :: rest) lastErr w
      = ((r, none),
         ⟨w.calls + 1,
          w.trace ++ (if attempt > 1 then [Event.printRetrying attempt maxRetries] else [])
            ++ attemptEvents env client sp up w.calls
            ++ (if attempt > 1 then [Event.printRetryOk] else [])⟩) := by
  unfold retryLoop
  by_cases ha : attempt > 1
  · simp [ha, callOnce_eq, World.emit, h]
  · simp [ha, callOnce_eq, World.emit, h]

/-- An attempt failing with a non-retryable error: the whole outcome of the loop. -/
theorem retryLoop_fatal_world (env : Env) (client : Client) (sp up : GoString)
    (maxRetries attempt : Nat) (rest : List Nat) (lastErr : Option GoError) (w : World)
    (e : GoError)
    (h : (attemptResult env client sp up w.calls).2 = some e)
    (hn : isRetryableError e = false) :
    retryLoop env client sp up maxRetries (attempt :: rest) lastErr w
      = (([], some e),
         ⟨w.calls + 1,
          w.trace ++ (if attempt > 1 then [Event.printRetrying attempt maxRetries] else [])
            ++ attemptEvents env client sp up w.calls⟩) := by
  rcases hres : attemptResult env client sp up w.calls with ⟨res, err⟩
  rw [hres] at h
  simp only at h
  subst h
  unfold retryLoop
  by_cases ha : attempt > 1
  · simp [ha, callOnce_eq, World.emit, hres, hn]
  · simp [ha, callOnce_eq, World.emit, hres, hn]

/-- An attempt failing with a retryable error: the loop goes on from the world in which
the attempt was made and, when attempts remain, the wait of `attempt * 2` seconds was
announced and performed. -/
theorem retryLoop_retry_world (env : Env) (client : Client) (sp up : GoString)
    (maxRetries attempt : Nat) (rest : List Nat) (lastErr : Option GoError) (w : World)
    (e : GoError)
    (h : (attemptResult env client sp up w.calls).2 = some e)
    (hr : isRetryableError e = true) :
    retryLoop env client sp up maxRetries (attempt :: rest) lastErr w
      = retryLoop env client sp up maxRetries rest (some e)
          ⟨w.calls + 1,
           w.trace ++ (if attempt > 1 then [Event.printRetrying attempt maxRetries] else [])
             ++ attemptEvents env client sp up w.calls
             ++ (if attempt < maxRetries then
                  [Event.printWaiting (attempt * 2 * Second),
                   Event.sleep (attempt * 2 * Second)]
                 else [])⟩ := by
  rcases hres : attemptResult env client sp up w.calls with ⟨res, err⟩
  rw [hres] at h
  simp only at h
  subst h
  conv_lhs => unfold retryLoop
  by_cases ha : attempt > 1 <;> by_cases hm : attempt < maxRetries <;>
    simp [ha, hm, callOnce_eq, World.emit, hres, hr]


/-- A successful attempt ends the loop with its result. -/
theorem retryLoop_success (env : Env) (client : Client) (sp up : GoString)
    (maxRetries attempt : Nat) (rest : List Nat) (lastErr : Option GoError) (w : World)
    (r : GoString)
    (h : attemptResult env client sp up w.calls = (r, none)) :
    (retryLoop env client sp up maxRetries (attempt :: rest) lastErr w).1 = (r, none) ∧
    (retryLoop env client sp up maxRetries (attempt :: rest) lastErr w).2.calls
      = w.calls + 1 ∧
    sleeps (retryLoop env client sp up maxRetries (attempt :: rest) lastErr w).2.trace
      = sleeps w.trace := by
  have hcalls : (if attempt > 1 then w.emit (.printRetrying attempt maxRetries) else w).calls
      = w.calls := by split <;> rfl
  have hsl : sleeps (if attempt > 1 then w.emit (.printRetrying attempt maxRetries)
      else w).trace = sleeps w.trace := by
    split <;> simp [World.emit, sleeps_append, sleeps]
  generalize hw1 : (if attempt > 1 then w.emit (.printRetrying attempt maxRetries) else w)
    = w1 at hcalls hsl
  have h1 := callOnce_fst env client sp up w1
  have h2 := callOnce_calls env client sp up w1
  have h3 := callOnce_sleeps env client sp up w1
  rw [hcalls, h] at h1
  unfold retryLoop
  simp only [hw1]
  rcases hc : callOnce env client sp up w1 with ⟨⟨res, err⟩, w2⟩
  rw [hc] at h1 h2 h3
  simp only at h1 h2 h3
  obtain ⟨rfl, rfl⟩ := Prod.mk.inj h1
  simp only
  refine ⟨by trivial, ?_, ?_⟩
  · split <;> simp [World.emit, h2, hcalls]
  · split <;> simp [World.emit, sleeps_append, sleeps, h3, hsl]

/-- An attempt that fails with a non-retryable error ends the loop with that error. -/
theorem retryLoop_fatal (env : Env) (client : Client) (sp up : GoString)
    (maxRetries attempt : Nat) (rest : List Nat) (lastErr : Option GoError) (w : World)
    (e : GoError)
    (h : (attemptResult env client sp up w.calls).2 = some e)
    (hn : isRetryableError e = false) :
    (retryLoop env client sp up maxRetries (attempt :: rest) lastErr w).1 = ([], some e) ∧
    (retryLoop env client sp up maxRetries (attempt :: rest) lastErr w).2.calls
      = w.calls + 1 ∧
    sleeps (retryLoop env client sp up maxRetries (attempt :: rest) lastErr w).2.trace
      = sleeps w.trace := by
  have hcalls : (if attempt > 1 then w.emit (.printRetrying attempt maxRetries) else w).calls
      = w.calls := by split <;> rfl
  have hsl : sleeps (if attempt > 1 then w.emit (.printRetrying attempt maxRetries)
      else w).trace = sleeps w.trace := by
    split <;> simp [World.emit, sleeps_append, sleeps]
  generalize hw1 : (if attempt > 1 then w.emit (.printRetrying attempt maxRetries) else w)
    = w1 at hcalls hsl
  have h1 := callOnce_fst env client sp up w1
  have h2 := callOnce_calls env client sp up w1
  have h3 := callOnce_sleeps env client sp up w1
  rw [hcalls] at h1
  unfold retryLoop
  simp only [hw1]
  rcases hc : callOnce env client sp up w1 with ⟨⟨res, err⟩, w2⟩
  rw [hc] at h1 h2 h3
  simp only at h1 h2 h3
  rw [← h1] at h
  simp only at h
  subst h
  simp [hn, h2, hcalls, h3, hsl]

/-- An attempt that fails with a retryable error waits `attempt * 2` seconds when
attempts remain and hands over to the rest of the loop. -/
theorem retryLoop_retry (env : Env) (client : Client) (sp up : GoString)
    (maxRetries attempt : Nat) (rest : List Nat) (lastErr : Option GoError) (w : World)
    (e : GoError)
    (h : (attemptResult env client sp up w.calls).2 = some e)
    (hr : isRetryableError e = true) :
    ∃ w2 : World, w2.calls = w.calls + 1 ∧
      sleeps w2.trace
        = sleeps w.trace ++ (if attempt < maxRetries then [attempt * 2 * Second] else []) ∧
      retryLoop env client sp up maxRetries (attempt :: rest) lastErr w
        = retryLoop env client sp up maxRetries rest (some e) w2 := by
  have hcalls : (if attempt > 1 then w.emit (.printRetrying attempt maxRetries) else w).calls
      = w.calls := by split <;> rfl
  have hsl : sleeps (if attempt > 1 then w.emit (.printRetrying attempt maxRetries)
      else w).trace = sleeps w.trace := by
    split <;> simp [World.emit, sleeps_append, sleeps]
  generalize hw1 : (if attempt > 1 then w.emit (.printRetrying attempt maxRetries) else w)
    = w1 at hcalls hsl
  have h1 := callOnce_fst env client sp up w1
  have h2 := callOnce_calls env client sp up w1
  have h3 := callOnce_sleeps env client sp up w1
  rw [hcalls] at h1
  rcases hc : callOnce env client sp up w1 with ⟨⟨res, err⟩, w2⟩
  rw [hc] at h1 h2 h3
  simp only at h1 h2 h3
  rw [← h1] at h
  simp only at h
  subst h
  refine ⟨if attempt < maxRetries then
      (w2.emit (.printWaiting (attempt * 2 * Second))).emit (.sleep (attempt * 2 * Second))
    else w2, ?_, ?_, ?_⟩
  · split <;> simp [World.emit, h2, hcalls]
  · split <;> simp [World.emit, sleeps_append, sleeps, h3, hsl]
  · conv_lhs => unfold retryLoop
    simp only [hw1, hc, hr]
    rfl

/-- With a key set, `CallWithMessages` is the loop over attempts 1, 2, 3. -/
theorem CallWithMessages_eq_retryLoop (env : Env) (client : Client) (sp up : GoString)
    (w : World) (hkey : client.APIKey ≠ []) :
    CallWithMessages env client sp up w
      = retryLoop env client sp up 3 [1, 2, 3] none w := by
  unfold CallWithMessages
  rw [if_neg hkey]
  rfl

/-! ## The retry controller (C1 - C4) -/

/-- C1: with a non-empty key, if the dispatcher fails with a retryable error on each
of the first `k - 1` attempts and succeeds with text `r` on attempt `k` (`k` in 1..3),
`CallWithMessages` returns `(r, nil)` after exactly `k` dispatcher invocations, and the
waits performed are `2 * i` seconds after failed attempt `i`, for `i = 1 .. k - 1`.
The trace is, for each failed attempt `i`, the events of that dispatcher invocation
followed at once by the announced wait of `2 * i` seconds, then the events of
attempt `k`; no wait happens inside an invocation. -/
theorem CallWithMessages_retry_then_success (env : Env) (client : Client)
    (sp up : GoString) (w : World) (k : Nat) (r : GoString)
    (hkey : client.APIKey ≠ []) (hk1 : 1 ≤ k) (hk3 : k ≤ 3)
    (hfail : ∀ i, 1 ≤ i → i < k → ∃ e,
      (attemptResult env client sp up (w.calls + (i - 1))).2 = some e ∧
      isRetryableError e = true)
    (hok : attemptResult env client sp up (w.calls + (k - 1)) = (r, none)) :
    (CallWithMessages env client sp up w).1 = (r, none) ∧
    (CallWithMessages env client sp up w).2.calls = w.calls + k ∧
    sleeps (CallWithMessages env client sp up w).2.trace
      = sleeps w.trace ++ (List.range' 1 (k - 1)).map (fun i => 2 * i * Second) ∧
    (CallWithMessages env client sp up w).2.trace
      = w.trace ++
        ((List.range' 1 (k - 1)).flatMap fun i =>
          (if i > 1 then [Event.printRetrying i 3] else []) ++
          attemptEvents env client sp up (w.calls + (i - 1)) ++
          [Event.printWaiting (2 * i * Second), Event.sleep (2 * i * Second)]) ++
        (if k > 1 then [Event.printRetrying k 3] else []) ++
        attemptEvents env client sp up (w.calls + (k - 1)) ++
        (if k > 1 then [Event.printRetryOk] else []) ∧
    ∀ n, sleeps (attemptEvents env client sp up n) = [] := by
  rw [CallWithMessages_eq_retryLoop env client sp up w hkey]
  interval_cases k
  · -- success on the first attempt
    rw [retryLoop_success_world env client sp up 3 1 [2, 3] none w r (by simpa using hok)]
    refine ⟨rfl, rfl, ?_, ?_, attemptEvents_sleeps env client sp up⟩
    · simp [sleeps_append, attemptEvents_sleeps]
    · simp
  · -- one retryable failure, then success
    obtain ⟨e1, he1, hr1⟩ := hfail 1 (by decide) (by decide)
    rw [retryLoop_retry_world env client sp up 3 1 [2, 3] none w e1 (by simpa using he1) hr1,
      retryLoop_success_world env client sp up 3 2 [3] (some e1) _ r (by simpa using hok)]
    refine ⟨rfl, rfl, ?_, ?_, attemptEvents_sleeps env client sp up⟩
    · simp [sleeps_append, sleeps, attemptEvents_sleeps, List.range']
    · simp [List.range']
  · -- two retryable failures, then success
    obtain ⟨e1, he1, hr1⟩ := hfail 1 (by decide) (by decide)
    obtain ⟨e2, he2, hr2⟩ := hfail 2 (by decide) (by decide)
    rw [retryLoop_retry_world env client sp up 3 1 [2, 3] none w e1 (by simpa using he1) hr1,
      retryLoop_retry_world env client sp up 3 2 [3] (some e1) _ e2 (by simpa using he2) hr2,
      retryLoop_success_world env client sp up 3 3 [] (some e2) _ r (by simpa using hok)]
    refine ⟨rfl, rfl, ?_, ?_, attemptEvents_sleeps env client sp up⟩
    · simp [sleeps_append, sleeps, attemptEvents_sleeps, List.range']
    · simp [List.range']

/-- Witness of C1: two transport failures, then success on the third attempt. -/
theorem CallWithMessages_retry_then_success_witness :
    (CallWithMessages flakyEnv sampleClient [] (str "hi") ⟨0, []⟩).1 = (str "ok", none) ∧
    (CallWithMessages flakyEnv sampleClient [] (str "hi") ⟨0, []⟩).2.calls = 0 + 3 ∧
    sleeps (CallWithMessages flakyEnv sampleClient [] (str "hi") ⟨0, []⟩).2.trace
      = sleeps [] ++ (List.range' 1 (3 - 1)).map (fun i => 2 * i * Second) ∧
    (CallWithMessages flakyEnv sampleClient [] (str "hi") ⟨0, []⟩).2.trace
      = [] ++
        ((List.range' 1 (3 - 1)).flatMap fun i =>
          (if i > 1 then [Event.printRetrying i 3] else []) ++
          attemptEvents flakyEnv sampleClient [] (str "hi") (0 + (i - 1)) ++
          [Event.printWaiting (2 * i * Second), Event.sleep (2 * i * Second)]) ++
        (if 3 > 1 then [Event.printRetrying 3 3] else []) ++
        attemptEvents flakyEnv sampleClient [] (str "hi") (0 + (3 - 1)) ++
        (if 3 > 1 then [Event.printRetryOk] else []) ∧
    (∀ n, sleeps (attemptEvents flakyEnv sampleClient [] (str "hi") n) = []) ∧
    schedule (CallWithMessages flakyEnv sampleClient [] (str "hi") ⟨0, []⟩).2.trace
      = [none, some (2 * Second), none, some (4 * Second), none] :=
  have h :=
    CallWithMessages_retry_then_success flakyEnv sampleClient [] (str "hi") ⟨0, []⟩ 3
      (str "ok") (by decide) (by decide) (by decide)
      (by
        intro i h1 h3
        interval_cases i
        · exact ⟨_, rfl, by decide⟩
        · exact ⟨_, rfl, by decide⟩)
      (by decide)
  ⟨h.1, h.2.1, h.2.2.1, h.2.2.2.1, h.2.2.2.2, by decide⟩

/-- C2: with a non-empty key, if the first non-retryable error `e` occurs on attempt
`n` (`n` in 1..3; all earlier attempts failed with retryable errors),
`CallWithMessages` returns `("", e)` with `e` itself, invokes the dispatcher exactly
`n` times and performs no wait after attempt `n` (the waits are those after attempts
`1 .. n - 1`). For `n = 1` the dispatcher is invoked exactly once. The trace is, for
each earlier attempt `i`, the events of that dispatcher invocation followed at once by
the announced wait of `2 * i` seconds, and it ends with the events of attempt `n`;
no wait happens inside an invocation. -/
theorem CallWithMessages_non_retryable (env : Env) (client : Client)
    (sp up : GoString) (w : World) (n : Nat) (e : GoError)
    (hkey : client.APIKey ≠ []) (hn1 : 1 ≤ n) (hn3 : n ≤ 3)
    (hfail : ∀ i, 1 ≤ i → i < n → ∃ e0,
      (attemptResult env client sp up (w.calls + (i - 1))).2 = some e0 ∧
      isRetryableError e0 = true)
    (herr : (attemptResult env client sp up (w.calls + (n - 1))).2 = some e)
    (hnr : isRetryableError e = false) :
    (CallWithMessages env client sp up w).1 = ([], some e) ∧
    (CallWithMessages env client sp up w).2.calls = w.calls + n ∧
    sleeps (CallWithMessages env client sp up w).2.trace
      = sleeps w.trace ++ (List.range' 1 (n - 1)).map (fun i => 2 * i * Second) ∧
    (CallWithMessages env client sp up w).2.trace
      = w.trace ++
        ((List.range' 1 (n - 1)).flatMap fun i =>
          (if i > 1 then [Event.printRetrying i 3] else []) ++
          attemptEvents env client sp up (w.calls + (i - 1)) ++
          [Event.printWaiting (2 * i * Second), Event.sleep (2 * i * Second)]) ++
        (if n > 1 then [Event.printRetrying n 3] else []) ++
        attemptEvents env client sp up (w.calls + (n - 1)) ∧
    ∀ m, sleeps (attemptEvents env client sp up m) = [] := by
  rw [CallWithMessages_eq_retryLoop env client sp up w hkey]
  interval_cases n
  · rw [retryLoop_fatal_world env client sp up 3 1 [2, 3] none w e (by simpa using herr) hnr]
    refine ⟨rfl, rfl, ?_, ?_, attemptEvents_sleeps env client sp up⟩
    · simp [sleeps_append, attemptEvents_sleeps]
    · simp
  · obtain ⟨e1, he1, hr1⟩ := hfail 1 (by decide) (by decide)
    rw [retryLoop_retry_world env client sp up 3 1 [2, 3] none w e1 (by simpa using he1) hr1,
      retryLoop_fatal_world env client sp up 3 2 [3] (some e1) _ e (by simpa using herr) hnr]
    refine ⟨rfl, rfl, ?_, ?_, attemptEvents_sleeps env client sp up⟩
    · simp [sleeps_append, sleeps, attemptEvents_sleeps, List.range']
    · simp [List.range']
  · obtain ⟨e1, he1, hr1⟩ := hfail 1 (by decide) (by decide)
    obtain ⟨e2, he2, hr2⟩ := hfail 2 (by decide) (by decide)
    rw [retryLoop_retry_world env client sp up 3 1 [2, 3] none w e1 (by simpa using he1) hr1,
      retryLoop_retry_world env client sp up 3 2 [3] (some e1) _ e2 (by simpa using he2) hr2,
      retryLoop_fatal_world env client sp up 3 3 [] (some e2) _ e (by simpa using herr) hnr]
    refine ⟨rfl, rfl, ?_, ?_, attemptEvents_sleeps env client sp up⟩
    · simp [sleeps_append, sleeps, attemptEvents_sleeps, List.range']
    · simp [List.range']

/-- Witness of C2: a transport failure, then a 401 response on the second attempt. -/
theorem CallWithMessages_non_retryable_witness :
    (CallWithMessages unauthorizedEnv sampleClient [] (str "hi") ⟨0, []⟩).1
      = ([], some (statusError 401 (str "invalid api key"))) ∧
    (CallWithMessages unauthorizedEnv sampleClient [] (str "hi") ⟨0, []⟩).2.calls = 0 + 2 ∧
    sleeps (CallWithMessages unauthorizedEnv sampleClient [] (str "hi") ⟨0, []⟩).2.trace
      = sleeps [] ++ (List.range' 1 (2 - 1)).map (fun i => 2 * i * Second) ∧
    (CallWithMessages unauthorizedEnv sampleClient [] (str "hi") ⟨0, []⟩).2.trace
      = [] ++
        ((List.range' 1 (2 - 1)).flatMap fun i =>
          (if i > 1 then [Event.printRetrying i 3] else []) ++
          attemptEvents unauthorizedEnv sampleClient [] (str "hi") (0 + (i - 1)) ++
          [Event.printWaiting (2 * i * Second), Event.sleep (2 * i * Second)]) ++
        (if 2 > 1 then [Event.printRetrying 2 3] else []) ++
        attemptEvents unauthorizedEnv sampleClient [] (str "hi") (0 + (2 - 1)) ∧
    (∀ m, sleeps (attemptEvents unauthorizedEnv sampleClient [] (str "hi") m) = []) ∧
    schedule (CallWithMessages unauthorizedEnv sampleClient [] (str "hi") ⟨0, []⟩).2.trace
      = [none, some (2 * Second), none] :=
  have h :=
    CallWithMessages_non_retryable unauthorizedEnv sampleClient [] (str "hi") ⟨0, []⟩ 2
      (statusError 401 (str "invalid api key")) (by decide) (by decide) (by decide)
      (by
        intro i h1 h2
        interval_cases i
        exact ⟨_, rfl, by decide⟩)
      (by decide) (by decide)
  ⟨h.1, h.2.1, h.2.2.1, h.2.2.2.1, h.2.2.2.2, by decide⟩

/-- C3: with a non-empty key, if the dispatcher fails with a retryable error on all of
attempts 1, 2 and 3, `CallWithMessages` invokes the dispatcher exactly 3 times, waits
exactly 2 then 4 seconds (no wait after the third attempt), and returns an empty string
with an error that wraps the third attempt's error and whose message states the
attempt count 3 followed by that last error's message. The trace is the events of the
first invocation, the announced wait of 2 seconds, the events of the second, the
announced wait of 4 seconds, and it ends with the events of the third; no wait
happens inside an invocation. -/
theorem CallWithMessages_exhausted (env : Env) (client : Client)
    (sp up : GoString) (w : World) (e1 e2 e3 : GoError)
    (hkey : client.APIKey ≠ [])
    (h1 : (attemptResult env client sp up w.calls).2 = some e1)
    (hr1 : isRetryableError e1 = true)
    (h2 : (attemptResult env client sp up (w.calls + 1)).2 = some e2)
    (hr2 : isRetryableError e2 = true)
    (h3 : (attemptResult env client sp up (w.calls + 2)).2 = some e3)
    (hr3 : isRetryableError e3 = true) :
    ∃ err : GoError,
      (CallWithMessages env client sp up w).1 = ([], some err) ∧
      err.Unwrap = some e3 ∧
      err.Error = str "重试3次后仍然失败: " ++ e3.Error ∧
      (CallWithMessages env client sp up w).2.calls = w.calls + 3 ∧
      sleeps (CallWithMessages env client sp up w).2.trace
        = sleeps w.trace ++ [2 * Second, 4 * Second] ∧
      (CallWithMessages env client sp up w).2.trace
        = w.trace ++
          attemptEvents env client sp up w.calls ++
          [Event.printWaiting (2 * Second), Event.sleep (2 * Second)] ++
          [Event.printRetrying 2 3] ++
          attemptEvents env client sp up (w.calls + 1) ++
          [Event.printWaiting (4 * Second), Event.sleep (4 * Second)] ++
          [Event.printRetrying 3 3] ++
          attemptEvents env client sp up (w.calls + 2) ∧
      ∀ n, sleeps (attemptEvents env client sp up n) = [] := by
  rw [CallWithMessages_eq_retryLoop env client sp up w hkey,
    retryLoop_retry_world env client sp up 3 1 [2, 3] none w e1 h1 hr1,
    retryLoop_retry_world env client sp up 3 2 [3] (some e1) _ e2 (by exact h2) hr2,
    retryLoop_retry_world env client sp up 3 3 [] (some e2) _ e3 (by exact h3) hr3]
  refine ⟨exhaustedError 3 (some e3), rfl, rfl, ?_, rfl, ?_, ?_,
    attemptEvents_sleeps env client sp up⟩
  · show str "重试" ++ Itoa 3 ++ str "次后仍然失败: " ++ e3.Error = _
    have hlit : str "重试" ++ Itoa 3 ++ str "次后仍然失败: " = str "重试3次后仍然失败: " := by
      decide
    rw [hlit]
  · simp [retryLoop, sleeps_append, sleeps, attemptEvents_sleeps]
  · simp [retryLoop]

/-- Witness of C3: the transport refuses the connection on every attempt. -/
theorem CallWithMessages_exhausted_witness :
    ∃ err : GoError,
      (CallWithMessages downEnv sampleClient [] (str "hi") ⟨0, []⟩).1 = ([], some err) ∧
      err.Unwrap
        = some (.wrap (str "发送请求失败: connect: connection refused")
            (.plain (str "connect: connection refused"))) ∧
      err.Error
        = str "重试3次后仍然失败: " ++
          GoError.Error (.wrap (str "发送请求失败: connect: connection refused")
            (.plain (str "connect: connection refused"))) ∧
      (CallWithMessages downEnv sampleClient [] (str "hi") ⟨0, []⟩).2.calls = 0 + 3 ∧
      sleeps (CallWithMessages downEnv sampleClient [] (str "hi") ⟨0, []⟩).2.trace
        = sleeps [] ++ [2 * Second, 4 * Second] ∧
      (CallWithMessages downEnv sampleClient [] (str "hi") ⟨0, []⟩).2.trace
        = [] ++
          attemptEvents downEnv sampleClient [] (str "hi") 0 ++
          [Event.printWaiting (2 * Second), Event.sleep (2 * Second)] ++
          [Event.printRetrying 2 3] ++
          attemptEvents downEnv sampleClient [] (str "hi") (0 + 1) ++
          [Event.printWaiting (4 * Second), Event.sleep (4 * Second)] ++
          [Event.printRetrying 3 3] ++
          attemptEvents downEnv sampleClient [] (str "hi") (0 + 2) ∧
      (∀ n, sleeps (attemptEvents downEnv sampleClient [] (str "hi") n) = []) ∧
      schedule (CallWithMessages downEnv sampleClient [] (str "hi") ⟨0, []⟩).2.trace
        = [none, some (2 * Second), none, some (4 * Second), none] :=
  have h :=
    CallWithMessages_exhausted downEnv sampleClient [] (str "hi") ⟨0, []⟩ _ _ _
      (by decide) rfl (by decide) rfl (by decide) rfl (by decide)
  h.elim fun err he =>
    ⟨err, he.1, he.2.1, he.2.2.1, he.2.2.2.1, he.2.2.2.2.1, he.2.2.2.2.2.1,
      he.2.2.2.2.2.2, by decide⟩

/-- C4: with an empty key `CallWithMessages` returns an empty string and a non-nil
error and leaves the world as it was (no dispatcher invocation, no HTTP request, no
wait); conversely, whenever it invokes the dispatcher the key is non-empty. -/
theorem CallWithMessages_missing_key (env : Env) (client : Client) (sp up : GoString)
    (w : World) :
    (client.APIKey = [] →
      (CallWithMessages env client sp up w).1 = ([], some missingKeyError) ∧
      (CallWithMessages env client sp up w).2 = w) ∧
    ((CallWithMessages env client sp up w).2.calls ≠ w.calls → client.APIKey ≠ []) := by
  have key : client.APIKey = [] →
      (CallWithMessages env client sp up w).1 = ([], some missingKeyError) ∧
      (CallWithMessages env client sp up w).2 = w := by
    intro h
    unfold CallWithMessages
    rw [if_pos h]
    exact ⟨rfl, rfl⟩
  refine ⟨key, ?_⟩
  intro hne h
  exact hne (by rw [(key h).2])

/-- Witness of C4: the fresh client of `New` has no key. -/
theorem CallWithMessages_missing_key_witness :
    (CallWithMessages flakyEnv New (str "sys") (str "hi") ⟨0, []⟩).1
      = ([], some missingKeyError) ∧
    (CallWithMessages flakyEnv New (str "sys") (str "hi") ⟨0, []⟩).2 = ⟨0, []⟩ :=
  (CallWithMessages_missing_key flakyEnv New (str "sys") (str "hi") ⟨0, []⟩).1 (by decide)

/-! ## Status handling (C5, C6) -/

/-- The result of `callOnce` when a response arrives. -/
theorem callOnce_response (env : Env) (client : Client) (sp up : GoString) (w : World)
    (status : Nat) (body : GoString)
    (hresp : env.outcome w.calls = .response status body) :
    (callOnce env client sp up w).1
      = if status ≠ 200 then ([], some (statusError status body))
        else parseResponse env client body := by
  unfold callOnce
  simp only [World.log, World.emit, logConfig_calls, hresp]
  split <;> rfl

/-- The requests `callOnce` hands to the transport: none when `http.NewRequest`
fails, otherwise the one request it built. -/
theorem callOnce_requests (env : Env) (client : Client) (sp up : GoString) (w : World) :
    requests (callOnce env client sp up w).2.trace
      = requests w.trace ++
        match env.outcome w.calls with
        | .newRequestFailed _ => []
        | _ => [⟨str "POST", requestURL client, requestHeaders client,
                  buildPayload client sp up, client.Timeout⟩] := by
  unfold callOnce
  simp only [World.log, World.emit, logConfig_calls]
  cases env.outcome w.calls <;>
    simp [requests_append, requests, logConfig_requests]
  split <;> simp [requests_append, requests, logConfig_requests]

/-- No error of `parseResponse` is a status error. -/
theorem parseResponse_ne_statusError (env : Env) (client : Client) (body : GoString)
    (status : Nat) (b : GoString) :
    (parseResponse env client body).2 ≠ some (statusError status b) := by
  have hempty : emptyResponseError ≠ statusError status b := by
    intro h
    unfold emptyResponseError statusError at h
    have h2 := congrArg (fun l => l.take 10) (GoError.plain.inj h)
    simp only [List.append_assoc] at h2
    rw [List.take_append_of_le_length (by decide)] at h2
    revert h2
    decide
  unfold parseResponse
  split
  · split
    · simp [statusError]
    · split
      · simpa using hempty
      · split
        · simpa using hempty
        · simp
  · split
    · simp [statusError]
    · split
      · simpa using hempty
      · simp

/-- C5, the code at the failing input: a 504 response whose body speaks of a timeout
gives a status error that `isRetryableError` classifies as retryable, so
`CallWithMessages` makes 3 attempts, waits 2 and 4 seconds, and returns the status
error wrapped in the exhaustion error. -/
theorem statusError_with_timeout_body_retried :
    attemptResult gatewayTimeoutEnv sampleClient [] (str "hi") 0
      = ([], some (statusError 504 (str "upstream request timeout"))) ∧
    isRetryableError (statusError 504 (str "upstream request timeout")) = true ∧
    (CallWithMessages gatewayTimeoutEnv sampleClient [] (str "hi") ⟨0, []⟩).1
      = ([], some (exhaustedError 3
          (some (statusError 504 (str "upstream request timeout"))))) ∧
    (CallWithMessages gatewayTimeoutEnv sampleClient [] (str "hi") ⟨0, []⟩).2.calls = 3 ∧
    sleeps (CallWithMessages gatewayTimeoutEnv sampleClient [] (str "hi") ⟨0, []⟩).2.trace
      = [2 * Second, 4 * Second] := by
  decide

/-- C6, as stated, fails: status 201 lies in 200..299, yet `callOnce` returns the
status error and does not decode the body. -/
theorem callOnce_status_201_is_error :
    (200 ≤ 201 ∧ 201 ≤ 299) ∧
    (callOnce createdEnv sampleClient [] (str "hi") ⟨0, []⟩).1
      = ([], some (statusError 201 (str "created"))) ∧
    (callOnce createdEnv sampleClient [] (str "hi") ⟨0, []⟩).1
      ≠ parseResponse createdEnv sampleClient (str "created") := by
  decide

/-- C6, amended: when a response arrives, `callOnce` returns a status error if and
only if the status code is not 200; that error is the pair of the empty string and an
error whose message is the fixed text, the decimal status code and the raw body; and
for status 200 the result is the decoding of the body, never a status error. -/
theorem callOnce_status_error_iff (env : Env) (client : Client) (sp up : GoString)
    (w : World) (status : Nat) (body : GoString)
    (hresp : env.outcome w.calls = .response status body) :
    ((∃ s b, (callOnce env client sp up w).1.2 = some (statusError s b)) ↔ status ≠ 200) ∧
    (status ≠ 200 →
      (callOnce env client sp up w).1 = ([], some (statusError status body))) ∧
    (statusError status body).Error
      = str "API返回错误 (status " ++ Itoa status ++ str "): " ++ body ∧
    (status = 200 → (callOnce env client sp up w).1 = parseResponse env client body) := by
  have h := callOnce_response env client sp up w status body hresp
  refine ⟨⟨?_, ?_⟩, ?_, rfl, ?_⟩
  · rintro ⟨s, b, hsb⟩ h200
    rw [h, if_neg (by simpa using h200)] at hsb
    exact parseResponse_ne_statusError env client body s b hsb
  · intro hne
    exact ⟨status, body, by rw [h, if_pos hne]⟩
  · intro hne
    rw [h, if_pos hne]
  · intro h200
    rw [h, if_neg (by simpa using h200)]

/-- Witness of the amended C6: the 201 response of `createdEnv`. -/
theorem callOnce_status_error_iff_witness :
    ((∃ s b, (callOnce createdEnv sampleClient [] (str "hi") ⟨0, []⟩).1.2
        = some (statusError s b)) ↔ 201 ≠ 200) ∧
    (201 ≠ 200 →
      (callOnce createdEnv sampleClient [] (str "hi") ⟨0, []⟩).1
        = ([], some (statusError 201 (str "created")))) ∧
    (statusError 201 (str "created")).Error
      = str "API返回错误 (status " ++ Itoa 201 ++ str "): " ++ str "created" ∧
    (201 = 200 →
      (callOnce createdEnv sampleClient [] (str "hi") ⟨0, []⟩).1
        = parseResponse createdEnv sampleClient (str "created")) :=
  callOnce_status_error_iff createdEnv sampleClient [] (str "hi") ⟨0, []⟩ 201
    (str "created") rfl

/-! ## Configuration and request building (C7 - C9) -/

theorem HasSuffix_append_self (u suffix : GoString) : HasSuffix (u ++ suffix) suffix = true := by
  unfold HasSuffix
  rw [List.isSuffixOf_iff_suffix]
  exact List.suffix_append u suffix

theorem TrimSuffix_append_self (u suffix : GoString) : TrimSuffix (u ++ suffix) suffix = u := by
  unfold TrimSuffix
  rw [if_pos (HasSuffix_append_self u suffix)]
  simp

/-- C7: after `SetCustomAPI(u + "#", key, model)` the URL `callOnce` requests is exactly
`u`; after `SetCustomAPI(u, key, model)` with `u` not ending in `#` it is exactly
`u + "/chat/completions"`. Both for the URL `callOnce` computes and for the request it
hands to the transport (one request, unless `http.NewRequest` rejects the URL). -/
theorem SetCustomAPI_requestURL (client : Client) (key model u : GoString) :
    (requestURL (SetCustomAPI client (u ++ str "#") key model) = u ∧
      ∀ (env : Env) (sp up : GoString) (w : World),
        (requests
          (callOnce env (SetCustomAPI client (u ++ str "#") key model) sp up w).2.trace).map
            (fun req => req.url)
          = (requests w.trace).map (fun req => req.url) ++
            match env.outcome w.calls with
            | .newRequestFailed _ => []
            | _ => [u]) ∧
    (HasSuffix u (str "#") = false →
      requestURL (SetCustomAPI client u key model) = u ++ str "/chat/completions" ∧
      ∀ (env : Env) (sp up : GoString) (w : World),
        (requests
          (callOnce env (SetCustomAPI client u key model) sp up w).2.trace).map
            (fun req => req.url)
          = (requests w.trace).map (fun req => req.url) ++
            match env.outcome w.calls with
            | .newRequestFailed _ => []
            | _ => [u ++ str "/chat/completions"]) := by
  have hcg : ProviderCustom ≠ ProviderGemini := by decide
  have hreq : ∀ (c : Client) (env : Env) (sp up : GoString) (w : World),
      (requests (callOnce env c sp up w).2.trace).map (fun req => req.url)
        = (requests w.trace).map (fun req => req.url) ++
          match env.outcome w.calls with
          | .newRequestFailed _ => []
          | _ => [requestURL c] := by
    intro c env sp up w
    rw [callOnce_requests, List.map_append]
    cases env.outcome w.calls <;> rfl
  have h1 : requestURL (SetCustomAPI client (u ++ str "#") key model) = u := by
    simp [requestURL, SetCustomAPI, HasSuffix_append_self, TrimSuffix_append_self, hcg]
  refine ⟨⟨h1, ?_⟩, ?_⟩
  · intro env sp up w
    rw [hreq, h1]
  · intro hns
    have h2 : requestURL (SetCustomAPI client u key model) = u ++ str "/chat/completions" := by
      simp [requestURL, SetCustomAPI, hns, hcg]
    refine ⟨h2, ?_⟩
    intro env sp up w
    rw [hreq, h2]

/-- Witness of C7: the URL `https://example.test/v1` does not end in `#`. -/
theorem SetCustomAPI_requestURL_witness :
    requestURL (SetCustomAPI New (str "https://example.test/v1") (str "k") (str "m"))
      = str "https://example.test/v1" ++ str "/chat/completions" :=
  ((SetCustomAPI_requestURL New (str "k") (str "m") (str "https://example.test/v1")).2
    (by decide)).1

/-- C8: each of `SetDeepSeekAPIKey`, `SetQwenAPIKey` and `SetGeminiAPIKey` sets
`Provider` to its own tag and `APIKey` to `apiKey`, sets `BaseURL` to `customURL` when
it is non-empty and otherwise to the default of the provider, and sets `Model` to
`customModel` when it is non-empty and otherwise to the default of the provider. -/
theorem setters_resolve_defaults (client : Client) (apiKey customURL customModel : GoString)
    (w : World) :
    ((SetDeepSeekAPIKey client apiKey customURL customModel w).1.Provider = str "deepseek" ∧
      (SetDeepSeekAPIKey client apiKey customURL customModel w).1.APIKey = apiKey ∧
      (SetDeepSeekAPIKey client apiKey customURL customModel w).1.BaseURL
        = (if customURL ≠ [] then customURL else str "https://api.deepseek.com/v1") ∧
      (SetDeepSeekAPIKey client apiKey customURL customModel w).1.Model
        = (if customModel ≠ [] then customModel else str "deepseek-chat")) ∧
    ((SetQwenAPIKey client apiKey customURL customModel w).1.Provider = str "qwen" ∧
      (SetQwenAPIKey client apiKey customURL customModel w).1.APIKey = apiKey ∧
      (SetQwenAPIKey client apiKey customURL customModel w).1.BaseURL
        = (if customURL ≠ [] then customURL
            else str "https://dashscope.aliyuncs.com/compatible-mode/v1") ∧
      (SetQwenAPIKey client apiKey customURL customModel w).1.Model
        = (if customModel ≠ [] then customModel else str "qwen-plus")) ∧
    ((SetGeminiAPIKey client apiKey customURL customModel w).1.Provider = str "gemini" ∧
      (SetGeminiAPIKey client apiKey customURL customModel w).1.APIKey = apiKey ∧
      (SetGeminiAPIKey client apiKey customURL customModel w).1.BaseURL
        = (if customURL ≠ [] then customURL
            else str "https://generativelanguage.googleapis.com/v1beta") ∧
      (SetGeminiAPIKey client apiKey customURL customModel w).1.Model
        = (if customModel ≠ [] then customModel else str "gemini-1.5-flash")) := by
  refine ⟨?_, ?_, ?_⟩
  · unfold SetDeepSeekAPIKey ProviderDeepSeek
    by_cases hu : customURL = [] <;> by_cases hm : customModel = [] <;> simp [hu, hm]
  · unfold SetQwenAPIKey ProviderQwen
    by_cases hu : customURL = [] <;> by_cases hm : customModel = [] <;> simp [hu, hm]
  · unfold SetGeminiAPIKey ProviderGemini
    by_cases hu : customURL = [] <;> by_cases hm : customModel = [] <;> simp [hu, hm]

/-- C9: for a client whose provider is not Gemini, the message list `callOnce` builds
is exactly the user entry when the system prompt is empty, and exactly the system
entry followed by the user entry otherwise; the payload carries the model of the
client, temperature 0.5 and max_tokens 2000. This payload is the body of the request
`callOnce` hands to the transport (one request, unless `http.NewRequest` rejects the
URL). -/
theorem buildPayload_chat (client : Client) (sp up : GoString)
    (hprov : client.Provider ≠ ProviderGemini) :
    buildPayload client sp up
      = .chat
          { model := client.Model
            messages :=
              if sp = [] then [{ role := str "user", content := up }]
              else [{ role := str "system", content := sp },
                    { role := str "user", content := up }]
            temperature := ⟨5, 1⟩
            max_tokens := 2000 } ∧
    ∀ (env : Env) (w : World),
      (requests (callOnce env client sp up w).2.trace).map (fun req => req.body)
        = (requests w.trace).map (fun req => req.body) ++
          match env.outcome w.calls with
          | .newRequestFailed _ => []
          | _ => [buildPayload client sp up] := by
  constructor
  · unfold buildPayload
    rw [if_neg hprov]
    by_cases hs : sp = [] <;> simp [hs]
  · intro env w
    rw [callOnce_requests, List.map_append]
    cases env.outcome w.calls <;> rfl

/-- Witness of C9: the custom client with a system prompt. -/
theorem buildPayload_chat_witness :
    buildPayload sampleClient (str "be brief") (str "hi")
      = .chat
          { model := sampleClient.Model
            messages :=
              if str "be brief" = [] then [{ role := str "user", content := str "hi" }]
              else [{ role := str "system", content := str "be brief" },
                    { role := str "user", content := str "hi" }]
            temperature := ⟨5, 1⟩
            max_tokens := 2000 } :=
  (buildPayload_chat sampleClient (str "be brief") (str "hi") (by decide)).1

/-! ## Gemini response decoding (C10) -/

/-- C10: for the Gemini provider and a 200 response whose body decodes, `callOnce`
returns an error, and no text, when the candidate list is empty or the first candidate
has no parts; otherwise it returns exactly the text of the first part of the first
candidate, with a nil error. -/
theorem callOnce_gemini_decoded (env : Env) (client : Client) (sp up : GoString)
    (w : World) (body : GoString) (gres : GeminiResponse)
    (hprov : client.Provider = ProviderGemini)
    (hresp : env.outcome w.calls = .response 200 body)
    (hdec : env.unmarshalGemini body = .ok gres) :
    ((gres.candidates = [] ∨
        ∃ candidate others, gres.candidates = candidate :: others ∧ candidate.parts = []) →
      (callOnce env client sp up w).1 = ([], some emptyResponseError)) ∧
    (∀ candidate others text texts,
      gres.candidates = candidate :: others → candidate.parts = text :: texts →
      (callOnce env client sp up w).1 = (text, none)) := by
  have h := callOnce_response env client sp up w 200 body hresp
  simp only [ne_eq, not_true_eq_false, if_false] at h
  rw [h]
  unfold parseResponse
  rw [if_pos hprov]
  simp only [hdec]
  constructor
  · rintro (hc | ⟨candidate, others, hc, hp⟩)
    · simp [hc]
    · simp [hc, hp]
  · intro candidate others text texts hc hp
    simp [hc, hp]

/-- Witness of C10: a Gemini client receiving a 200 response with one candidate. -/
theorem callOnce_gemini_decoded_witness :
    ((([⟨[str "hello"]⟩] : List GeminiCandidate) = [] ∨
        ∃ candidate others, ([⟨[str "hello"]⟩] : List GeminiCandidate) = candidate :: others ∧
          candidate.parts = []) →
      (callOnce helloEnv geminiClient [] (str "hi") ⟨0, []⟩).1
        = ([], some emptyResponseError)) ∧
    (∀ candidate others text texts,
      ([⟨[str "hello"]⟩] : List GeminiCandidate) = candidate :: others →
      candidate.parts = text :: texts →
      (callOnce helloEnv geminiClient [] (str "hi") ⟨0, []⟩).1 = (text, none)) :=
  callOnce_gemini_decoded helloEnv geminiClient [] (str "hi") ⟨0, []⟩ (str "hello")
    ⟨[⟨[str "hello"]⟩]⟩ (by decide) rfl rfl

/-! ## Target URL and authentication (C11) -/

/-- C11, as stated, fails: for a Gemini client whose `BaseURL` is empty the URL is not
`BaseURL + "/models/" + Model + ":generateContent?key=" + APIKey`; the default base
stands in for the empty one. -/
theorem requestURL_gemini_empty_base :
    bareGeminiClient.Provider = ProviderGemini ∧
    requestURL bareGeminiClient
      ≠ bareGeminiClient.BaseURL ++ str "/models/" ++ bareGeminiClient.Model
          ++ str ":generateContent?key=" ++ bareGeminiClient.APIKey ∧
    requestURL bareGeminiClient
      = str "https://generativelanguage.googleapis.com/v1beta/models/gemini-1.5-flash:generateContent?key=g-key-0123456789" := by
  decide

/-- C11, amended: for a Gemini client the URL is the base, `"/models/"`, the model,
`":generateContent?key="` and the key, where the base is `BaseURL` when that is
non-empty and `https://generativelanguage.googleapis.com/v1beta` otherwise, and the
only header is `Content-Type`; for every other provider the headers are `Content-Type`
and `Authorization: Bearer ` followed by the key, and the URL is `BaseURL` or
`BaseURL + "/chat/completions"`, the same whatever the key is. The request handed to
the transport carries this URL and these headers. -/
theorem callOnce_url_and_auth (client : Client) :
    (client.Provider = ProviderGemini →
      requestURL client
        = (if client.BaseURL = [] then str "https://generativelanguage.googleapis.com/v1beta"
            else client.BaseURL)
          ++ str "/models/" ++ client.Model ++ str ":generateContent?key=" ++ client.APIKey ∧
      requestHeaders client = [(str "Content-Type", str "application/json")] ∧
      ∀ value, (str "Authorization", value) ∉ requestHeaders client) ∧
    (client.Provider ≠ ProviderGemini →
      requestHeaders client
        = [(str "Content-Type", str "application/json"),
           (str "Authorization", str "Bearer " ++ client.APIKey)] ∧
      requestURL client
        = (if client.UseFullURL then client.BaseURL
            else client.BaseURL ++ str "/chat/completions") ∧
      ∀ key, requestURL { client with APIKey := key } = requestURL client) ∧
    (∀ (env : Env) (sp up : GoString) (w : World),
      (requests (callOnce env client sp up w).2.trace).map
          (fun req => (req.url, req.headers))
        = (requests w.trace).map (fun req => (req.url, req.headers)) ++
          match env.outcome w.calls with
          | .newRequestFailed _ => []
          | _ => [(requestURL client, requestHeaders client)]) := by
  refine ⟨?_, ?_, ?_⟩
  · intro hg
    have hne : str "Authorization" ≠ str "Content-Type" := by decide
    refine ⟨?_, ?_, ?_⟩
    · unfold requestURL
      rw [if_pos hg]
    · unfold requestHeaders
      rw [if_pos hg]
    · intro value
      unfold requestHeaders
      rw [if_pos hg]
      simp [hne]
  · intro hng
    refine ⟨?_, ?_, ?_⟩
    · unfold requestHeaders
      rw [if_neg hng]
      split
      · rfl
      · split <;> rfl
    · unfold requestURL
      rw [if_neg hng]
    · intro key
      unfold requestURL
      simp [hng]
  · intro env sp up w
    rw [callOnce_requests, List.map_append]
    cases env.outcome w.calls <;> rfl

/-- Witness of the amended C11: the Gemini client with an empty `BaseURL`. -/
theorem callOnce_url_and_auth_witness :
    requestURL bareGeminiClient
      = (if bareGeminiClient.BaseURL = []
            then str "https://generativelanguage.googleapis.com/v1beta"
            else bareGeminiClient.BaseURL)
        ++ str "/models/" ++ bareGeminiClient.Model ++ str ":generateContent?key="
        ++ bareGeminiClient.APIKey ∧
    requestHeaders sampleClient
      = [(str "Content-Type", str "application/json"),
         (str "Authorization", str "Bearer " ++ sampleClient.APIKey)] :=
  ⟨((callOnce_url_and_auth bareGeminiClient).1 (by decide)).1,
   ((callOnce_url_and_auth sampleClient).2.1 (by decide)).1⟩

/-! ## Configuration at a successful call (C12) -/

/-- C12, as stated, fails: `CallWithMessages` succeeds for a client whose `Model` is
empty (set up by `SetCustomAPI`) and for a Gemini client whose `BaseURL` is empty. -/
theorem CallWithMessages_succeeds_with_empty_config :
    ((CallWithMessages helloEnv noModelClient [] (str "hi") ⟨0, []⟩).1 = (str "hello", none) ∧
      noModelClient.Model = []) ∧
    ((CallWithMessages helloEnv bareGeminiClient [] (str "hi") ⟨0, []⟩).1
        = (str "hello", none) ∧
      bareGeminiClient.BaseURL = []) := by
  decide

/-- The provider setters leave `BaseURL` and `Model` non-empty. -/
theorem setters_nonempty (prior : Client) (apiKey customURL customModel : GoString)
    (w : World) :
    ((SetDeepSeekAPIKey prior apiKey customURL customModel w).1.BaseURL ≠ [] ∧
      (SetDeepSeekAPIKey prior apiKey customURL customModel w).1.Model ≠ []) ∧
    ((SetQwenAPIKey prior apiKey customURL customModel w).1.BaseURL ≠ [] ∧
      (SetQwenAPIKey prior apiKey customURL customModel w).1.Model ≠ []) ∧
    ((SetGeminiAPIKey prior apiKey customURL customModel w).1.BaseURL ≠ [] ∧
      (SetGeminiAPIKey prior apiKey customURL customModel w).1.Model ≠ []) := by
  have d1 : str "https://api.deepseek.com/v1" ≠ [] := by decide
  have d2 : str "deepseek-chat" ≠ [] := by decide
  have q1 : str "https://dashscope.aliyuncs.com/compatible-mode/v1" ≠ [] := by decide
  have q2 : str "qwen-plus" ≠ [] := by decide
  have g1 : str "https://generativelanguage.googleapis.com/v1beta" ≠ [] := by decide
  have g2 : str "gemini-1.5-flash" ≠ [] := by decide
  refine ⟨?_, ?_, ?_⟩
  · unfold SetDeepSeekAPIKey
    by_cases hu : customURL = [] <;> by_cases hm : customModel = [] <;>
      simp [hu, hm, d1, d2]
  · unfold SetQwenAPIKey
    by_cases hu : customURL = [] <;> by_cases hm : customModel = [] <;>
      simp [hu, hm, q1, q2]
  · unfold SetGeminiAPIKey
    by_cases hu : customURL = [] <;> by_cases hm : customModel = [] <;>
      simp [hu, hm, g1, g2]

/-- C12, amended: if `CallWithMessages` returns with a nil error, the `APIKey` of the
client is non-empty; and if the client is the result of `SetDeepSeekAPIKey`,
`SetQwenAPIKey` or `SetGeminiAPIKey`, its `BaseURL` and `Model` are non-empty too. -/
theorem CallWithMessages_success_config (env : Env) (client : Client) (sp up : GoString)
    (w : World) (r : GoString)
    (hok : (CallWithMessages env client sp up w).1 = (r, none)) :
    client.APIKey ≠ [] ∧
    ∀ (prior : Client) (apiKey customURL customModel : GoString) (w0 : World),
      (client = (SetDeepSeekAPIKey prior apiKey customURL customModel w0).1 ∨
        client = (SetQwenAPIKey prior apiKey customURL customModel w0).1 ∨
        client = (SetGeminiAPIKey prior apiKey customURL customModel w0).1) →
      client.BaseURL ≠ [] ∧ client.Model ≠ [] := by
  constructor
  · intro hkey
    unfold CallWithMessages at hok
    rw [if_pos hkey] at hok
    simp at hok
  · intro prior apiKey customURL customModel w0 hset
    have h := setters_nonempty prior apiKey customURL customModel w0
    rcases hset with rfl | rfl | rfl
    · exact h.1
    · exact h.2.1
    · exact h.2.2

/-- Witness of the amended C12: a successful call of the client set up by
`SetGeminiAPIKey`. -/
theorem CallWithMessages_success_config_witness :
    geminiClient.APIKey ≠ [] ∧ geminiClient.BaseURL ≠ [] ∧ geminiClient.Model ≠ [] :=
  ⟨(CallWithMessages_success_config helloEnv geminiClient [] (str "hi") ⟨0, []⟩
      (str "hello") (by decide)).1,
   (CallWithMessages_success_config helloEnv geminiClient [] (str "hi") ⟨0, []⟩
      (str "hello") (by decide)).2 New (str "g-key-0123456789") [] [] ⟨0, []⟩
      (Or.inr (Or.inr rfl))⟩

/-! ## OpenAI-compatible response decoding (C13) -/

/-- C13: for a provider other than Gemini and a 200 response whose body decodes,
`callOnce` returns an error, and no text, when the choice list is empty; otherwise it
returns exactly the message content of the first choice with a nil error, whatever
the later choices are. -/
theorem callOnce_chat_decoded (env : Env) (client : Client) (sp up : GoString)
    (w : World) (body : GoString) (result : ChatResponse)
    (hprov : client.Provider ≠ ProviderGemini)
    (hresp : env.outcome w.calls = .response 200 body)
    (hdec : env.unmarshalChat body = .ok result) :
    (result.choices = [] →
      (callOnce env client sp up w).1 = ([], some emptyResponseError)) ∧
    (∀ content others, result.choices = content :: others →
      (callOnce env client sp up w).1 = (content, none)) := by
  have h := callOnce_response env client sp up w 200 body hresp
  simp only [ne_eq, not_true_eq_false, if_false] at h
  rw [h]
  unfold parseResponse
  rw [if_neg hprov]
  simp only [hdec]
  constructor
  · intro hc
    simp [hc]
  · intro content others hc
    simp [hc]

/-- Witness of C13: the custom client receiving a 200 response with one choice. -/
theorem callOnce_chat_decoded_witness :
    (([str "hello"] : List GoString) = [] →
      (callOnce helloEnv sampleClient [] (str "hi") ⟨0, []⟩).1
        = ([], some emptyResponseError)) ∧
    (∀ content others, ([str "hello"] : List GoString) = content :: others →
      (callOnce helloEnv sampleClient [] (str "hi") ⟨0, []⟩).1 = (content, none)) :=
  callOnce_chat_decoded helloEnv sampleClient [] (str "hi") ⟨0, []⟩ (str "hello")
    ⟨[str "hello"]⟩ (by decide) rfl rfl

/-! ## Gemini payload (C14) -/

/-- C14: for the Gemini provider the payload `callOnce` builds has a system
instruction block, holding the system prompt as its single text part, exactly when
the system prompt is non-empty; its contents are exactly one turn with role `user`
and the user prompt as its single text part; its generation parameters are
temperature 0.5 and maxOutputTokens 2000; and nothing in it depends on the model of
the client. This payload is the body of the request handed to the transport. -/
theorem buildPayload_gemini (client : Client) (sp up : GoString)
    (hprov : client.Provider = ProviderGemini) :
    buildPayload client sp up
      = .gemini
          { system_instruction :=
              if sp = [] then none else some { role := str "system", parts := [sp] }
            contents := [{ role := str "user", parts := [up] }]
            temperature := ⟨5, 1⟩
            maxOutputTokens := 2000 } ∧
    (∀ model, buildPayload { client with Model := model } sp up = buildPayload client sp up) ∧
    ∀ (env : Env) (w : World),
      (requests (callOnce env client sp up w).2.trace).map (fun req => req.body)
        = (requests w.trace).map (fun req => req.body) ++
          match env.outcome w.calls with
          | .newRequestFailed _ => []
          | _ => [buildPayload client sp up] := by
  refine ⟨?_, ?_, ?_⟩
  · unfold buildPayload
    rw [if_pos hprov]
    by_cases hs : sp = [] <;> simp [hs]
  · intro model
    unfold buildPayload
    simp [hprov]
  · intro env w
    rw [callOnce_requests, List.map_append]
    cases env.outcome w.calls <;> rfl

/-- Witness of C14: the Gemini client with a system prompt. -/
theorem buildPayload_gemini_witness :
    buildPayload geminiClient (str "be brief") (str "hi")
      = .gemini
          { system_instruction :=
              if str "be brief" = [] then none
              else some { role := str "system", parts := [str "be brief"] }
            contents := [{ role := str "user", parts := [str "hi"] }]
            temperature := ⟨5, 1⟩
            maxOutputTokens := 2000 } :=
  (buildPayload_gemini geminiClient (str "be brief") (str "hi") (by decide)).1

/-! ## Error classification (C15) -/

/-- The function `Contains` decides whether `substr` is a contiguous block of `s`. -/
theorem Contains_iff_infix (s substr : GoString) : Contains s substr = true ↔ substr <:+: s := by
  induction s with
  | nil => simp [Contains, List.isEmpty_iff]
  | cons c cs ih =>
    rw [List.infix_cons_iff, ← ih]
    simp [Contains]

/-- C15: `isRetryableError e` is true if and only if the message of `e` contains, byte
for byte, at least one of `EOF`, `timeout`, `connection reset`, `connection refused`,
`temporary failure`, `no such host`; two errors with the same message are classified
alike, whatever their kind or wrapping. -/
theorem isRetryableError_iff (e : GoError) :
    (isRetryableError e = true ↔
      str "EOF" <:+: e.Error ∨ str "timeout" <:+: e.Error ∨
      str "connection reset" <:+: e.Error ∨ str "connection refused" <:+: e.Error ∨
      str "temporary failure" <:+: e.Error ∨ str "no such host" <:+: e.Error) ∧
    (∀ e2 : GoError, e2.Error = e.Error → isRetryableError e2 = isRetryableError e) := by
  constructor
  · unfold isRetryableError retryableErrors
    simp only [List.any_cons, List.any_nil, Bool.or_false, Bool.or_eq_true,
      Contains_iff_infix]
  · intro e2 h
    unfold isRetryableError
    rw [h]

/-- Witness of C15: a plain error and a wrapping error with the same message are
classified alike; the match is case-sensitive. -/
theorem isRetryableError_iff_witness :
    isRetryableError (.wrap (str "read: unexpected EOF") (.plain (str "inner")))
      = isRetryableError (.plain (str "read: unexpected EOF")) ∧
    isRetryableError (.plain (str "read: unexpected EOF")) = true ∧
    isRetryableError (.plain (str "read: unexpected eof")) = false ∧
    isRetryableError (.plain (str "request Timeout")) = false :=
  ⟨(isRetryableError_iff (.plain (str "read: unexpected EOF"))).2
      (.wrap (str "read: unexpected EOF") (.plain (str "inner"))) rfl,
   by decide, by decide, by decide⟩

/-! ## The whole-configuration setter (C16) -/

/-- C16: `SetClient` leaves the client the receiver points at unchanged in every field,
whatever the configuration passed, also when its `Timeout` is zero: the 30-second
default goes to the local copy, a cell of its own. Every other live cell is unchanged
as well. -/
theorem SetClient_leaves_receiver (h : Heap) (client : Nat) (config receiver : Client)
    (hrecv : h.read client = some receiver) :
    (SetClient h client config).read client = some receiver ∧
    (∀ p c, h.read p = some c → (SetClient h client config).read p = some c) ∧
    (SetClient h client config).read h.cells.length
      = some (if config.Timeout = 0 then { config with Timeout := 30 * Second }
              else config) := by
  have hold : ∀ p c, h.read p = some c → (SetClient h client config).read p = some c := by
    intro p c hp
    unfold Heap.read at hp
    have hlt : p < h.cells.length := (List.getElem?_eq_some.1 hp).1
    unfold SetClient Heap.alloc Heap.modify Heap.read
    simp only
    split
    · rw [List.getElem?_modify_ne _ _ (by omega), List.getElem?_append_left hlt, hp]
    · rw [List.getElem?_append_left hlt, hp]
  refine ⟨hold client receiver hrecv, hold, ?_⟩
  unfold SetClient Heap.alloc Heap.modify Heap.read
  simp only
  split
  · rw [List.getElem?_modify_eq]
    simp
  · simp

/-- Witness of C16: the receiver is the fresh client of `New`, the configuration passed
has a zero timeout. -/
theorem SetClient_leaves_receiver_witness :
    (SetClient ⟨[New]⟩ 0 { sampleClient with Timeout := 0 }).read 0 = some New ∧
    (∀ p c, Heap.read ⟨[New]⟩ p = some c →
      (SetClient ⟨[New]⟩ 0 { sampleClient with Timeout := 0 }).read p = some c) ∧
    (SetClient ⟨[New]⟩ 0 { sampleClient with Timeout := 0 }).read (Heap.mk [New]).cells.length
      = some (if ({ sampleClient with Timeout := 0 } : Client).Timeout = 0
              then { ({ sampleClient with Timeout := 0 } : Client) with
                      Timeout := 30 * Second }
              else { sampleClient with Timeout := 0 }) :=
  SetClient_leaves_receiver ⟨[New]⟩ 0 { sampleClient with Timeout := 0 } New rfl

/-! ## Redaction of the key in the log (C17) -/

theorem logLines_append (a b : List Event) :
    logLines (a ++ b) = logLines a ++ logLines b := by
  induction a with
  | nil => rfl
  | cons e es ih => cases e <;> simp [logLines, ih]

/-- The lines one invocation of `callOnce` logs. -/
theorem callOnce_logLines (env : Env) (client : Client) (sp up : GoString) (w : World) :
    logLines (callOnce env client sp up w).2.trace
      = logLines w.trace ++
        [str "📡 [MCP] AI 请求配置:",
         str "   Provider: " ++ client.Provider,
         str "   BaseURL: " ++ client.BaseURL,
         str "   Model: " ++ client.Model,
         str "   UseFullURL: " ++ FormatBool client.UseFullURL] ++
        (if client.APIKey.length > 8 then
          [str "   API Key: " ++ client.APIKey.take 4 ++ str "..." ++
            client.APIKey.drop (client.APIKey.length - 4)]
         else []) ++
        [str "📡 [MCP] 请求 URL: " ++ requestURL client] := by
  unfold callOnce logConfig logKey
  simp only [World.log, World.emit]
  by_cases hk : client.APIKey.length > 8
  · simp only [if_pos hk]
    cases env.outcome w.calls <;> simp [logLines_append, logLines]
    split <;> simp [logLines_append, logLines]
  · simp only [if_neg hk]
    cases env.outcome w.calls <;> simp [logLines_append, logLines]
    split <;> simp [logLines_append, logLines]

/-- C17, the code at the failing input: two Gemini keys longer than 8 bytes that agree
on their first 4 and last 4 bytes give different log lines in `callOnce`, because the
logged URL holds the whole key; and a key of 5 bytes is logged whole as well. -/
theorem callOnce_gemini_logs_whole_key :
    ((str "abcd-first-wxyz").length > 8 ∧ (str "abcd-other-wxyz").length > 8 ∧
      (str "abcd-first-wxyz").take 4 = (str "abcd-other-wxyz").take 4 ∧
      (str "abcd-first-wxyz").drop ((str "abcd-first-wxyz").length - 4)
        = (str "abcd-other-wxyz").drop ((str "abcd-other-wxyz").length - 4)) ∧
    logLines (callOnce helloEnv (geminiClientWithKey (str "abcd-first-wxyz"))
        [] (str "hi") ⟨0, []⟩).2.trace
      ≠ logLines (callOnce helloEnv (geminiClientWithKey (str "abcd-other-wxyz"))
        [] (str "hi") ⟨0, []⟩).2.trace ∧
    str "📡 [MCP] 请求 URL: https://generativelanguage.googleapis.com/v1beta/models/gemini-1.5-flash:generateContent?key=abcd-first-wxyz"
      ∈ logLines (callOnce helloEnv (geminiClientWithKey (str "abcd-first-wxyz"))
        [] (str "hi") ⟨0, []⟩).2.trace ∧
    ((str "short").length ≤ 8 ∧
      str "📡 [MCP] 请求 URL: https://generativelanguage.googleapis.com/v1beta/models/gemini-1.5-flash:generateContent?key=short"
        ∈ logLines (callOnce helloEnv (geminiClientWithKey (str "short"))
          [] (str "hi") ⟨0, []⟩).2.trace) := by
  decide

/-- The key line depends on a key longer than 8 bytes only through its first 4 and
last 4 bytes, and on a key of at most 8 bytes not at all. -/
theorem logKey_redacts (label k1 k2 : GoString) (w : World)
    (h : (k1.length > 8 ∧ k2.length > 8 ∧ k1.take 4 = k2.take 4 ∧
          k1.drop (k1.length - 4) = k2.drop (k2.length - 4)) ∨
         (k1.length ≤ 8 ∧ k2.length ≤ 8)) :
    logKey label k1 w = logKey label k2 w := by
  unfold logKey
  rcases h with ⟨h1, h2, hp, hs⟩ | ⟨h1, h2⟩
  · rw [if_pos h1, if_pos h2, hp, hs]
  · rw [if_neg (by omega), if_neg (by omega)]

/-- Where the redaction holds: the lines logged by the three provider setters, and
the lines logged by `callOnce` for a provider other than Gemini, are the same for two
keys longer than 8 bytes that agree on their first 4 and last 4 bytes, and the same
for any two keys of at most 8 bytes. -/
theorem key_redacted_outside_gemini_url (k1 k2 : GoString)
    (h : (k1.length > 8 ∧ k2.length > 8 ∧ k1.take 4 = k2.take 4 ∧
          k1.drop (k1.length - 4) = k2.drop (k2.length - 4)) ∨
         (k1.length ≤ 8 ∧ k2.length ≤ 8)) :
    (∀ (client : Client) (customURL customModel : GoString) (w : World),
      (SetDeepSeekAPIKey client k1 customURL customModel w).2
        = (SetDeepSeekAPIKey client k2 customURL customModel w).2 ∧
      (SetQwenAPIKey client k1 customURL customModel w).2
        = (SetQwenAPIKey client k2 customURL customModel w).2 ∧
      (SetGeminiAPIKey client k1 customURL customModel w).2
        = (SetGeminiAPIKey client k2 customURL customModel w).2) ∧
    (∀ (env : Env) (client : Client) (sp up : GoString) (w : World),
      client.Provider ≠ ProviderGemini →
      logLines (callOnce env { client with APIKey := k1 } sp up w).2.trace
        = logLines (callOnce env { client with APIKey := k2 } sp up w).2.trace) := by
  constructor
  · intro client customURL customModel w
    refine ⟨?_, ?_, ?_⟩
    · unfold SetDeepSeekAPIKey
      by_cases hu : customURL = [] <;> by_cases hm : customModel = [] <;>
        simp [hu, hm, logKey_redacts _ k1 k2 _ h]
    · unfold SetQwenAPIKey
      by_cases hu : customURL = [] <;> by_cases hm : customModel = [] <;>
        simp [hu, hm, logKey_redacts _ k1 k2 _ h]
    · unfold SetGeminiAPIKey
      by_cases hu : customURL = [] <;> by_cases hm : customModel = [] <;>
        simp [hu, hm, logKey_redacts _ k1 k2 _ h]
  · intro env client sp up w hprov
    have hurl : ∀ k, requestURL { client with APIKey := k } = requestURL client := by
      intro k
      unfold requestURL
      simp [hprov]
    rw [callOnce_logLines, callOnce_logLines, hurl k1, hurl k2]
    simp only
    rcases h with ⟨h1, h2, hp, hs⟩ | ⟨h1, h2⟩
    · rw [if_pos h1, if_pos h2, hp, hs]
    · rw [if_neg (by omega), if_neg (by omega)]

/-! ## Fields the provider setters leave alone (C18) -/

/-- C18: `SetDeepSeekAPIKey`, `SetQwenAPIKey` and `SetGeminiAPIKey` leave `UseFullURL`
and `Timeout` as they were; so after `SetCustomAPI(u + "#", ...)` the flag is still set
after a following `SetDeepSeekAPIKey` or `SetQwenAPIKey`, and `callOnce` then requests
`BaseURL` itself, without the `/chat/completions` suffix. -/
theorem setters_keep_flag_and_timeout (client : Client)
    (apiKey customURL customModel : GoString) (w : World) :
    ((SetDeepSeekAPIKey client apiKey customURL customModel w).1.UseFullURL
        = client.UseFullURL ∧
      (SetDeepSeekAPIKey client apiKey customURL customModel w).1.Timeout = client.Timeout ∧
      (SetQwenAPIKey client apiKey customURL customModel w).1.UseFullURL
        = client.UseFullURL ∧
      (SetQwenAPIKey client apiKey customURL customModel w).1.Timeout = client.Timeout ∧
      (SetGeminiAPIKey client apiKey customURL customModel w).1.UseFullURL
        = client.UseFullURL ∧
      (SetGeminiAPIKey client apiKey customURL customModel w).1.Timeout = client.Timeout) ∧
    (∀ (u key model : GoString),
      (SetDeepSeekAPIKey (SetCustomAPI client (u ++ str "#") key model)
          apiKey customURL customModel w).1.UseFullURL = true ∧
      requestURL (SetDeepSeekAPIKey (SetCustomAPI client (u ++ str "#") key model)
          apiKey customURL customModel w).1
        = (SetDeepSeekAPIKey (SetCustomAPI client (u ++ str "#") key model)
            apiKey customURL customModel w).1.BaseURL ∧
      (SetQwenAPIKey (SetCustomAPI client (u ++ str "#") key model)
          apiKey customURL customModel w).1.UseFullURL = true ∧
      requestURL (SetQwenAPIKey (SetCustomAPI client (u ++ str "#") key model)
          apiKey customURL customModel w).1
        = (SetQwenAPIKey (SetCustomAPI client (u ++ str "#") key model)
            apiKey customURL customModel w).1.BaseURL) := by
  have keep : ∀ c : Client,
      (SetDeepSeekAPIKey c apiKey customURL customModel w).1.UseFullURL = c.UseFullURL ∧
      (SetDeepSeekAPIKey c apiKey customURL customModel w).1.Timeout = c.Timeout ∧
      (SetQwenAPIKey c apiKey customURL customModel w).1.UseFullURL = c.UseFullURL ∧
      (SetQwenAPIKey c apiKey customURL customModel w).1.Timeout = c.Timeout ∧
      (SetGeminiAPIKey c apiKey customURL customModel w).1.UseFullURL = c.UseFullURL ∧
      (SetGeminiAPIKey c apiKey customURL customModel w).1.Timeout = c.Timeout := by
    intro c
    unfold SetDeepSeekAPIKey SetQwenAPIKey SetGeminiAPIKey
    by_cases hu : customURL = [] <;> by_cases hm : customModel = [] <;> simp [hu, hm]
  have provD : ∀ c : Client,
      (SetDeepSeekAPIKey c apiKey customURL customModel w).1.Provider = ProviderDeepSeek := by
    intro c
    unfold SetDeepSeekAPIKey
    by_cases hu : customURL = [] <;> by_cases hm : customModel = [] <;> simp [hu, hm]
  have provQ : ∀ c : Client,
      (SetQwenAPIKey c apiKey customURL customModel w).1.Provider = ProviderQwen := by
    intro c
    unfold SetQwenAPIKey
    by_cases hu : customURL = [] <;> by_cases hm : customModel = [] <;> simp [hu, hm]
  have hdg : ProviderDeepSeek ≠ ProviderGemini := by decide
  have hqg : ProviderQwen ≠ ProviderGemini := by decide
  refine ⟨keep client, ?_⟩
  intro u key model
  have hflag : (SetCustomAPI client (u ++ str "#") key model).UseFullURL = true := by
    simp [SetCustomAPI, HasSuffix_append_self]
  have hD := (keep (SetCustomAPI client (u ++ str "#") key model)).1
  have hQ := (keep (SetCustomAPI client (u ++ str "#") key model)).2.2.1
  rw [hflag] at hD hQ
  refine ⟨hD, ?_, hQ, ?_⟩
  · unfold requestURL
    rw [provD, if_neg hdg, hD]
    rfl
  · unfold requestURL
    rw [provQ, if_neg hqg, hQ]
    rfl

end Mcp
